import Mathlib

/-!
Shallow embedding of src/Mt3620UartSigfox/main.c (Azure Sphere MT3620 UART
sample): a button poll handler that sends a fixed AT-command string over a
UART on a High-to-Low press edge, a UART receive handler that accumulates a
byte counter and drives an active-low LED from its parity, a partial-write
send loop, and the peripheral init/shutdown lifecycle of main().

External calls (write, read, GPIO_GetValue, GPIO_SetValue, the epoll helper
library) are modelled by passing their results as explicit parameters: a
handler invocation is a pure function of the current global state and the
results the OS returns during that invocation.
-/

/-- GPIO logic levels, as in applibs gpio.h. The button reads Low when
pressed; the LED is active-low (Low = lit). -/
inductive GPIO_Value_Type where
  | Low
  | High
deriving DecidableEq, Repr

/-- The mutable global state of main.c that the event handlers touch:
buttonState, totalBytesReceived (a size_t, so arithmetic is mod 2^64),
terminationRequired, and the LED level last driven by GPIO_SetValue
(initially High, i.e. off, from GPIO_OpenAsOutput). -/
structure AppState where
  buttonState : GPIO_Value_Type
  totalBytesReceived : Nat
  terminationRequired : Bool
  ledLevel : GPIO_Value_Type
deriving DecidableEq, Repr

/-- Modulus of size_t arithmetic on the 64-bit target. -/
def sizeTMod : Nat := 2 ^ 64

/-- Result of SendUartMessage's write loop. `complete sent iterations`:
the loop exited with totalBytesSent = sent after that many write calls.
`fatal sent`: a write call returned a negative result after `sent` bytes
had already been written, so the function set terminationRequired and
returned early. `outOfWrites sent`: the supplied finite list of write
results was exhausted while the loop still wanted to continue (the fuel
of the embedding, not a behaviour of the C code). -/
inductive SendOutcome where
  | complete (sent : Nat) (iterations : Nat)
  | fatal (sent : Nat)
  | outOfWrites (sent : Nat)
deriving DecidableEq, Repr

/-- Whether the outcome is the error-return path that sets
terminationRequired. -/
def SendOutcome.isFatal : SendOutcome → Bool
  | SendOutcome.fatal _ => true
  | _ => false

/-- The while loop of SendUartMessage (main.c lines 62-76): while
totalBytesSent < totalBytesToSend, consume the next write(2) result; a
negative result aborts with terminationRequired, otherwise the (size_t)
cast of the result is added to totalBytesSent. The list of write results
is the oracle for the external write calls. totalBytesSent is a size_t,
but write(2) returns at most the requested count, so the sum never
reaches 2^64 for any real write sequence; the accumulator is therefore a
plain Nat (validWrites states the bound where a theorem needs it). -/
def sendLoop (totalBytesToSend : Nat) : Nat → Nat → List Int → SendOutcome
  | totalBytesSent, sendIterations, writes =>
    if totalBytesSent < totalBytesToSend then
      match writes with
      | [] => SendOutcome.outOfWrites totalBytesSent
      | bytesSent :: rest =>
        if bytesSent < 0 then SendOutcome.fatal totalBytesSent
        else sendLoop totalBytesToSend (totalBytesSent + bytesSent.toNat) (sendIterations + 1) rest
    else SendOutcome.complete totalBytesSent sendIterations

/-- SendUartMessage (main.c lines 57-79): run the write loop over the
whole NUL-terminated string, i.e. strlen dataToSend bytes. -/
def SendUartMessage (dataToSend : String) (writes : List Int) : SendOutcome :=
  sendLoop dataToSend.length 0 0 writes

/-- POSIX validity of a sequence of write results against the loop's
requests: each non-negative result is at most the number of bytes the
loop asked for at that point (bytesLeftToSend). Results after an error
are never consumed, so they are unconstrained. -/
def validWrites : Nat → List Int → Bool
  | _, [] => true
  | remaining, w :: ws =>
    if w < 0 then true
    else decide (w.toNat ≤ remaining) && validWrites (remaining - w.toNat) ws

/-- The fixed outbound message of ButtonPollTimerEventHandler
(main.c line 104). -/
def messageToSend : String := "AT$RC\n\rAT$SF=692665535048455245\n\r"

/-- ButtonPollTimerEventHandler (main.c lines 84-109). Parameters carry
the external results of this invocation: ConsumeTimerFdEvent's return,
GPIO_GetValue's return and the level it read, and the write results
available to SendUartMessage should a send happen. Returns the new state
and, when a send was triggered, the message handed to SendUartMessage
together with the send's outcome. -/
def ButtonPollTimerEventHandler (consumeResult : Int) (gpioGetResult : Int)
    (newButtonState : GPIO_Value_Type) (writes : List Int) (s : AppState) :
    AppState × Option (String × SendOutcome) :=
  if consumeResult ≠ 0 then ({ s with terminationRequired := true }, none)
  else if gpioGetResult ≠ 0 then ({ s with terminationRequired := true }, none)
  else if newButtonState ≠ s.buttonState then
    if newButtonState = GPIO_Value_Type.Low then
      let outcome := SendUartMessage messageToSend writes
      let s1 := if outcome.isFatal then { s with terminationRequired := true } else s
      ({ s1 with buttonState := newButtonState }, some (messageToSend, outcome))
    else ({ s with buttonState := newButtonState }, none)
  else (s, none)

/-- Size of the single bounded read issued by UartEventHandler
(main.c line 116). -/
def receiveBufferSize : Nat := 256

/-- UartEventHandler (main.c lines 114-143) as a function of the result
of its one read(2) call and the result GPIO_SetValue returns. A negative
read sets terminationRequired and returns; a zero read does nothing; a
positive read adds the count to totalBytesReceived (size_t) and drives
the LED Low when the cumulative total is odd, High when even. If
GPIO_SetValue fails its driven level is unspecified, so the model leaves
ledLevel unchanged on that branch and sets terminationRequired. -/
def UartEventHandler (bytesRead : Int) (setValueResult : Int) (s : AppState) : AppState :=
  if bytesRead < 0 then { s with terminationRequired := true }
  else if bytesRead > 0 then
    let newTotal := (s.totalBytesReceived + bytesRead.toNat) % sizeTMod
    let driven := if newTotal % 2 = 1 then GPIO_Value_Type.Low else GPIO_Value_Type.High
    let s1 := { s with
      totalBytesReceived := newTotal,
      ledLevel := if setValueResult = 0 then driven else s.ledLevel }
    if setValueResult ≠ 0 then { s1 with terminationRequired := true } else s1
  else s

/-- UartEventHandler viewed against a stream of buffered inbound bytes:
the handler issues exactly one read of up to receiveBufferSize bytes, so
one invocation consumes min receiveBufferSize stream.length bytes and
leaves the rest for later dispatcher wake-ups. -/
def UartEventHandlerStream (stream : List Nat) (setValueResult : Int) (s : AppState) :
    AppState × List Nat :=
  let bytesRead := min receiveBufferSize stream.length
  (UartEventHandler (Int.ofNat bytesRead) setValueResult s, stream.drop bytesRead)

/-- A sequence of successful receive invocations (read succeeds with the
given byte count, GPIO_SetValue succeeds), folded over the state. -/
def processReceives : AppState → List Nat → AppState
  | s, [] => s
  | s, c :: cs => processReceives (UartEventHandler (Int.ofNat c) 0 s) cs

/-- One write result that completes the fixed message in a single call. -/
def oneFullWrite : List Int := [Int.ofNat messageToSend.length]

/-- A sequence of button poll invocations with the given sampled levels
(timer consume and GPIO read succeed, sends complete): final state plus,
per sample, whether that invocation triggered a UART send. -/
def pollButtonSamples : AppState → List GPIO_Value_Type → AppState × List Bool
  | s, [] => (s, [])
  | s, v :: vs =>
    let r := ButtonPollTimerEventHandler 0 0 v oneFullWrite s
    let rest := pollButtonSamples r.1 vs
    (rest.1, r.2.isSome :: rest.2)

/-- Spec-side edge predicate, from the spec's words: a send fires on a
sample exactly when it differs from the immediately preceding sample
(the initial recorded state for the first) and the new level is Low. -/
def specSendFlags (init : GPIO_Value_Type) (samples : List GPIO_Value_Type) : List Bool :=
  (List.zip (init :: samples) samples).map
    (fun pc => decide (pc.2 ≠ pc.1 ∧ pc.2 = GPIO_Value_Type.Low))

/-! ## Lifecycle: InitPeripheralsAndHandlers, ClosePeripheralsAndHandlers, main -/

/-- The five peripherals main.c acquires, identified by the global file
descriptor that holds each. -/
inductive Peripheral where
  | epoll
  | uart
  | button
  | timer
  | led
deriving DecidableEq, Repr

/-- The five file-descriptor globals of main.c, each initialized to the
invalid value -1 and set to a non-negative descriptor on a successful
open. -/
structure Fds where
  epollFd : Int
  uartFd : Int
  triggerSendButtonGpioFd : Int
  buttonPollTimerFd : Int
  incomingDataLedGpioFd : Int
deriving DecidableEq, Repr

/-- All descriptors invalid, as at program start. -/
def initialFds : Fds := { epollFd := -1, uartFd := -1, triggerSendButtonGpioFd := -1,
                          buttonPollTimerFd := -1, incomingDataLedGpioFd := -1 }

/-- The descriptor holding a given peripheral. -/
def Fds.fdOf (f : Fds) : Peripheral → Int
  | Peripheral.epoll => f.epollFd
  | Peripheral.uart => f.uartFd
  | Peripheral.button => f.triggerSendButtonGpioFd
  | Peripheral.timer => f.buttonPollTimerFd
  | Peripheral.led => f.incomingDataLedGpioFd

/-- UART flow-control choices of applibs uart.h. -/
inductive UART_FlowControl where
  | None
  | RTSCTS
  | XONXOFF
deriving DecidableEq, Repr

/-- The UART_Config fields main.c sets before UART_Open. -/
structure UART_Config where
  baudRate : Nat
  flowControl : UART_FlowControl
deriving DecidableEq, Repr

/-- A struct timespec with non-negative fields, as the literal at
main.c line 186 builds it. -/
structure Timespec where
  tv_sec : Nat
  tv_nsec : Nat
deriving DecidableEq, Repr

/-- Acquisition/registration steps performed by InitPeripheralsAndHandlers
(main.c lines 160-200), in order, recording the configuration each call
receives. -/
inductive InitAction where
  | createEpollFd
  | openUart (config : UART_Config)
  | registerUartEventHandler
  | openButtonAsInput
  | createButtonPollTimer (period : Timespec)
  | openLedAsOutput (initialValue : GPIO_Value_Type)
deriving DecidableEq, Repr

/-- The peripheral an init action acquires, if it acquires one. -/
def initActionPeripheral : InitAction → Option Peripheral
  | InitAction.createEpollFd => some Peripheral.epoll
  | InitAction.openUart _ => some Peripheral.uart
  | InitAction.registerUartEventHandler => none
  | InitAction.openButtonAsInput => some Peripheral.button
  | InitAction.createButtonPollTimer _ => some Peripheral.timer
  | InitAction.openLedAsOutput _ => some Peripheral.led

/-- The fallible steps of InitPeripheralsAndHandlers, in program order;
an injected failure at one step models that call returning its error
value. -/
inductive InitStep where
  | epoll
  | uart
  | registerUart
  | button
  | timer
  | led
deriving DecidableEq, Repr

/-- What a run of InitPeripheralsAndHandlers leaves behind: the
descriptor globals, the function's return value (0 or -1), and the trace
of acquisition steps that succeeded. -/
structure InitResult where
  fds : Fds
  ret : Int
  actions : List InitAction
deriving DecidableEq, Repr

/-- Nanoseconds in one millisecond; the poll period literal
at main.c line 186 is 0 seconds and 1000000 nanoseconds. -/
def nanosecondsPerMillisecond : Nat := 1000000

/-- The button poll period, struct timespec value at main.c line 186. -/
def buttonPressCheckPeriod : Timespec := { tv_sec := 0, tv_nsec := 1000000 }

/-- The UART configuration main.c builds: baud rate 9600, no flow
control (lines 166-169). -/
def uartConfigUsed : UART_Config := { baudRate := 9600, flowControl := UART_FlowControl.None }

/-- The LED's inactive electrical level under the active-low convention:
GPIO high is LED off (main.c comment at line 193). -/
def ledInactiveLevel : GPIO_Value_Type := GPIO_Value_Type.High

/-- InitPeripheralsAndHandlers (main.c lines 153-203), with the failing
step (if any) injected: acquires epoll fd, UART (with uartConfigUsed),
registers the UART handler, opens the button input, creates and
registers the poll timer (with buttonPressCheckPeriod), opens the LED
output initialized to ledInactiveLevel. Any failure returns -1 at once,
leaving the descriptors acquired so far set; successful descriptors get
arbitrary distinct non-negative values (0..4 here). -/
def InitPeripheralsAndHandlers (failAt : Option InitStep) : InitResult :=
  if failAt = some InitStep.epoll then
    { fds := initialFds, ret := -1, actions := [] }
  else
    let f0 := { initialFds with epollFd := 0 }
    let t0 := [InitAction.createEpollFd]
    if failAt = some InitStep.uart then { fds := f0, ret := -1, actions := t0 }
    else
      let f1 := { f0 with uartFd := 1 }
      let t1 := t0 ++ [InitAction.openUart uartConfigUsed]
      if failAt = some InitStep.registerUart then { fds := f1, ret := -1, actions := t1 }
      else
        let t2 := t1 ++ [InitAction.registerUartEventHandler]
        if failAt = some InitStep.button then { fds := f1, ret := -1, actions := t2 }
        else
          let f2 := { f1 with triggerSendButtonGpioFd := 2 }
          let t3 := t2 ++ [InitAction.openButtonAsInput]
          if failAt = some InitStep.timer then { fds := f2, ret := -1, actions := t3 }
          else
            let f3 := { f2 with buttonPollTimerFd := 3 }
            let t4 := t3 ++ [InitAction.createButtonPollTimer buttonPressCheckPeriod]
            if failAt = some InitStep.led then { fds := f3, ret := -1, actions := t4 }
            else
              { fds := { f3 with incomingDataLedGpioFd := 4 },
                ret := 0,
                actions := t4 ++ [InitAction.openLedAsOutput ledInactiveLevel] }

/-- Observable actions of the shutdown path. -/
inductive ShutdownAction where
  | setLedInactive
  | closeFd (p : Peripheral)
deriving DecidableEq, Repr

/-- Modelled from the spec: CloseFdAndPrintError lives in the repository's
epoll helper library, not in main.c; per the spec's release contract it
closes the descriptor when it is valid (non-negative) and only logs on
failure (best-effort, nothing escalated). -/
def CloseFdAndPrintError (fd : Int) (p : Peripheral) : List ShutdownAction :=
  if 0 ≤ fd then [ShutdownAction.closeFd p] else []

/-- ClosePeripheralsAndHandlers (main.c lines 208-221): first drive the
LED to its inactive level (only if its descriptor is valid; the result
of that GPIO_SetValue, passed here as setValueResult, is ignored), then
close the five descriptors in the textual order of lines 216-220: LED,
poll timer, button, UART, epoll. -/
def ClosePeripheralsAndHandlers (f : Fds) (_setValueResult : Int) : List ShutdownAction :=
  (if 0 ≤ f.incomingDataLedGpioFd then [ShutdownAction.setLedInactive] else []) ++
  CloseFdAndPrintError f.incomingDataLedGpioFd Peripheral.led ++
  CloseFdAndPrintError f.buttonPollTimerFd Peripheral.timer ++
  CloseFdAndPrintError f.triggerSendButtonGpioFd Peripheral.button ++
  CloseFdAndPrintError f.uartFd Peripheral.uart ++
  CloseFdAndPrintError f.epollFd Peripheral.epoll

/-- The order in which InitPeripheralsAndHandlers acquires peripherals. -/
def acquisitionOrder : List Peripheral :=
  [Peripheral.epoll, Peripheral.uart, Peripheral.button, Peripheral.timer, Peripheral.led]

/-- The peripherals a shutdown trace closes, in order. -/
def closedPeripherals (acts : List ShutdownAction) : List Peripheral :=
  acts.filterMap (fun a =>
    match a with
    | ShutdownAction.closeFd p => some p
    | ShutdownAction.setLedInactive => none)

/-- The dispatch loop of main (main.c lines 234-238): while
terminationRequired is false, call WaitForEventAndCallHandler; each
element of the oracle list is one such call, as (its return value,
whether a handler or the signal handler set terminationRequired during
it). Returns the number of iterations executed and the final flag. An
exhausted oracle ends the run with the flag still false. -/
def mainLoop : Bool → List (Int × Bool) → Nat × Bool
  | true, _ => (0, true)
  | false, [] => (0, false)
  | false, r :: rest =>
    let term := r.2 || decide (r.1 ≠ 0)
    let nxt := mainLoop term rest
    (nxt.1 + 1, nxt.2)

/-- What a run of main observes: the final terminationRequired flag, how
many dispatch-loop iterations ran, and the shutdown trace. -/
structure MainOutcome where
  terminationRequired : Bool
  loopIterations : Nat
  shutdownTrace : List ShutdownAction
deriving DecidableEq, Repr

/-- main (main.c lines 226-243): run InitPeripheralsAndHandlers (with an
injected failing step), set terminationRequired on a nonzero return, run
the dispatch loop against the given oracle, then
ClosePeripheralsAndHandlers on whatever descriptors are set. -/
def mainModel (failAt : Option InitStep) (dispatches : List (Int × Bool)) : MainOutcome :=
  let ini := InitPeripheralsAndHandlers failAt
  let lr := mainLoop (decide (ini.ret ≠ 0)) dispatches
  { terminationRequired := lr.2,
    loopIterations := lr.1,
    shutdownTrace := ClosePeripheralsAndHandlers ini.fds 0 }

/-- Spec-side (from the claim's words): a fatal write error during the
send leaves nothing of the message written. -/
def SendAllOrNothing : Prop :=
  ∀ (writes : List Int) (sent : Nat),
    SendUartMessage messageToSend writes = SendOutcome.fatal sent → sent = 0

/-- The canonical initial values of main.c's state globals: buttonState
GPIO_Value_High, totalBytesReceived 0, terminationRequired false, LED
opened at GPIO_Value_High (off). -/
def initialAppState : AppState :=
  { buttonState := GPIO_Value_Type.High, totalBytesReceived := 0,
    terminationRequired := false, ledLevel := GPIO_Value_Type.High }

/-! ## Helper lemmas -/

lemma oneFullWrite_not_fatal :
    (SendUartMessage messageToSend oneFullWrite).isFatal = false := by decide

lemma buttonPollStep_spec (s : AppState) (v : GPIO_Value_Type) :
    (ButtonPollTimerEventHandler 0 0 v oneFullWrite s).1.buttonState = v ∧
    (ButtonPollTimerEventHandler 0 0 v oneFullWrite s).2.isSome
      = decide (v ≠ s.buttonState ∧ v = GPIO_Value_Type.Low) := by
  obtain ⟨b, t, f, l⟩ := s
  cases v <;> cases b <;>
    simp [ButtonPollTimerEventHandler, oneFullWrite_not_fatal]

lemma pollButtonSamples_cons (s : AppState) (v : GPIO_Value_Type)
    (vs : List GPIO_Value_Type) :
    pollButtonSamples s (v :: vs) =
      ((pollButtonSamples (ButtonPollTimerEventHandler 0 0 v oneFullWrite s).1 vs).1,
       (ButtonPollTimerEventHandler 0 0 v oneFullWrite s).2.isSome ::
         (pollButtonSamples (ButtonPollTimerEventHandler 0 0 v oneFullWrite s).1 vs).2) := rfl

lemma specSendFlags_cons (init v : GPIO_Value_Type) (vs : List GPIO_Value_Type) :
    specSendFlags init (v :: vs)
      = decide (v ≠ init ∧ v = GPIO_Value_Type.Low) :: specSendFlags v vs := rfl

lemma sendLoop_done (total sent iters : Nat) (writes : List Int) (h : ¬ sent < total) :
    sendLoop total sent iters writes = SendOutcome.complete sent iters := by
  unfold sendLoop; simp [h]

lemma sendLoop_nil (total sent iters : Nat) (h : sent < total) :
    sendLoop total sent iters [] = SendOutcome.outOfWrites sent := by
  unfold sendLoop; simp [h]

lemma sendLoop_cons_neg (total sent iters : Nat) (w : Int) (ws : List Int)
    (h : sent < total) (hw : w < 0) :
    sendLoop total sent iters (w :: ws) = SendOutcome.fatal sent := by
  unfold sendLoop; simp [h, hw]

lemma sendLoop_cons_nonneg (total sent iters : Nat) (w : Int) (ws : List Int)
    (h : sent < total) (hw : ¬ w < 0) :
    sendLoop total sent iters (w :: ws)
      = sendLoop total (sent + w.toNat) (iters + 1) ws := by
  conv_lhs => unfold sendLoop
  simp [h, hw]

lemma sendLoop_complete_eq (writes : List Int) : ∀ (total sent iters n i : Nat),
    sent ≤ total → validWrites (total - sent) writes = true →
    sendLoop total sent iters writes = SendOutcome.complete n i → n = total := by
  induction writes with
  | nil =>
    intro total sent iters n i hle hv heq
    by_cases h : sent < total
    · rw [sendLoop_nil total sent iters h] at heq
      exact absurd heq (by simp)
    · rw [sendLoop_done total sent iters [] h] at heq
      injection heq with h1 h2
      omega
  | cons w ws ih =>
    intro total sent iters n i hle hv heq
    by_cases h : sent < total
    · by_cases hw : w < 0
      · rw [sendLoop_cons_neg total sent iters w ws h hw] at heq
        exact absurd heq (by simp)
      · rw [sendLoop_cons_nonneg total sent iters w ws h hw] at heq
        simp only [validWrites, if_neg hw, Bool.and_eq_true, decide_eq_true_eq] at hv
        have hrw : total - (sent + w.toNat) = total - sent - w.toNat := by omega
        exact ih total (sent + w.toNat) (iters + 1) n i (by omega) (by rw [hrw]; exact hv.2) heq
    · rw [sendLoop_done total sent iters (w :: ws) h] at heq
      injection heq with h1 h2
      omega

lemma sendLoop_fatal_lt (writes : List Int) : ∀ (total sent iters m : Nat),
    sendLoop total sent iters writes = SendOutcome.fatal m → sent ≤ m ∧ m < total := by
  induction writes with
  | nil =>
    intro total sent iters m heq
    by_cases h : sent < total
    · rw [sendLoop_nil total sent iters h] at heq
      exact absurd heq (by simp)
    · rw [sendLoop_done total sent iters [] h] at heq
      exact absurd heq (by simp)
  | cons w ws ih =>
    intro total sent iters m heq
    by_cases h : sent < total
    · by_cases hw : w < 0
      · rw [sendLoop_cons_neg total sent iters w ws h hw] at heq
        injection heq with h1
        omega
      · rw [sendLoop_cons_nonneg total sent iters w ws h hw] at heq
        have := ih total (sent + w.toNat) (iters + 1) m heq
        omega
    · rw [sendLoop_done total sent iters (w :: ws) h] at heq
      exact absurd heq (by simp)

/-! ## Claims -/

/-- C1: for every sequence of button level samples, the poll handler
triggers a UART send on a sample iff that sample differs from the
immediately preceding recorded button state and the new level is Low (so
a Low-to-High transition never sends), and after processing any sample
the recorded button state equals that sample's level (the last sample of
the run, or the initial state for an empty run). -/
theorem buttonPoll_edge_iff (s : AppState) (samples : List GPIO_Value_Type) :
    (pollButtonSamples s samples).2 = specSendFlags s.buttonState samples ∧
    (pollButtonSamples s samples).1.buttonState = samples.getLastD s.buttonState := by
  induction samples generalizing s with
  | nil => simp [pollButtonSamples, specSendFlags]
  | cons v vs ih =>
    have hstep := buttonPollStep_spec s v
    have ih' := ih (ButtonPollTimerEventHandler 0 0 v oneFullWrite s).1
    rw [pollButtonSamples_cons, specSendFlags_cons, List.getLastD_cons]
    exact ⟨by rw [hstep.2, ih'.1, hstep.1], by rw [ih'.2, hstep.1]⟩

/-- C2 counterexample: with a first write of 10 bytes and then a failing
write, SendUartMessage aborts having already written 10 bytes of the
message, so the all-or-nothing part of the claim is false on the code. -/
theorem sendUart_not_all_or_nothing :
    SendUartMessage messageToSend [10, -1] = SendOutcome.fatal 10 ∧ ¬ SendAllOrNothing := by
  refine ⟨by decide, ?_⟩
  intro h
  exact absurd (h [10, -1] 10 (by decide)) (by decide)

/-- C2 (amended): on a press edge the handler hands the send routine
exactly the literal byte sequence AT$RC\n\rAT$SF=692665535048455245\n\r;
under POSIX-valid write results the routine either completes with the
bytes written summing to exactly the message length, or a failing write
aborts it with strictly fewer bytes than the full message written (only
the prefix sent by the preceding successful writes, possibly non-empty)
and the TerminationFlag set. -/
theorem sendUart_press_message (s : AppState) (writes : List Int)
    (hb : s.buttonState = GPIO_Value_Type.High)
    (hv : validWrites messageToSend.length writes = true) :
    (ButtonPollTimerEventHandler 0 0 GPIO_Value_Type.Low writes s).2
      = some (messageToSend, SendUartMessage messageToSend writes) ∧
    messageToSend.data =
      ['A', 'T', '$', 'R', 'C', '\n', '\r', 'A', 'T', '$', 'S', 'F', '=',
       '6', '9', '2', '6', '6', '5', '5', '3', '5', '0', '4', '8', '4', '5',
       '5', '2', '4', '5', '\n', '\r'] ∧
    (∀ n i, SendUartMessage messageToSend writes = SendOutcome.complete n i
      → n = messageToSend.length) ∧
    (∀ m, SendUartMessage messageToSend writes = SendOutcome.fatal m →
      m < messageToSend.length ∧
      (ButtonPollTimerEventHandler 0 0 GPIO_Value_Type.Low writes s).1.terminationRequired
        = true) := by
  refine ⟨?_, by decide, ?_, ?_⟩
  · simp [ButtonPollTimerEventHandler, hb]
  · intro n i heq
    exact sendLoop_complete_eq writes messageToSend.length 0 0 n i (Nat.zero_le _)
      (by simpa using hv) heq
  · intro m heq
    refine ⟨(sendLoop_fatal_lt writes messageToSend.length 0 0 m heq).2, ?_⟩
    have hf : (SendUartMessage messageToSend writes).isFatal = true := by
      rw [show (SendUartMessage messageToSend writes) = SendOutcome.fatal m from heq]
      rfl
    simp [ButtonPollTimerEventHandler, hb, hf]

/-- Witness for C2's theorem: press edge from the initial state with one
full write of 33 bytes. -/
theorem sendUart_press_message_witness :
    (ButtonPollTimerEventHandler 0 0 GPIO_Value_Type.Low [(33 : Int)] initialAppState).2
      = some (messageToSend, SendUartMessage messageToSend [(33 : Int)]) :=
  (sendUart_press_message initialAppState [(33 : Int)] rfl (by decide)).1

lemma uartHandler_pos (c : Nat) (hc : 0 < c) (s : AppState) :
    UartEventHandler (Int.ofNat c) 0 s =
      { s with
        totalBytesReceived := (s.totalBytesReceived + c) % sizeTMod,
        ledLevel := if (s.totalBytesReceived + c) % sizeTMod % 2 = 1
          then GPIO_Value_Type.Low else GPIO_Value_Type.High } := by
  have h1 : ¬ ((c : Int) < 0) := by omega
  have h2 : (0 : Int) < (c : Int) := by exact_mod_cast hc
  simp [UartEventHandler, h1, h2, hc]

lemma processReceives_spec (counts : List Nat) : ∀ s : AppState,
    (∀ c ∈ counts, 0 < c) → s.totalBytesReceived + counts.sum < sizeTMod →
    (processReceives s counts).totalBytesReceived = s.totalBytesReceived + counts.sum ∧
    (processReceives s counts).terminationRequired = s.terminationRequired ∧
    (processReceives s counts).buttonState = s.buttonState ∧
    (processReceives s counts).ledLevel = (if counts = [] then s.ledLevel
      else if (s.totalBytesReceived + counts.sum) % 2 = 1
        then GPIO_Value_Type.Low else GPIO_Value_Type.High) := by
  induction counts with
  | nil => intro s hpos hbound; simp [processReceives]
  | cons c cs ih =>
    intro s hpos hbound
    have hc : 0 < c := hpos c (by simp)
    have hsum : (c :: cs).sum = c + cs.sum := by simp
    rw [hsum] at hbound
    have hmod : (s.totalBytesReceived + c) % sizeTMod = s.totalBytesReceived + c :=
      Nat.mod_eq_of_lt (by omega)
    have hproc : processReceives s (c :: cs)
        = processReceives (UartEventHandler (Int.ofNat c) 0 s) cs := rfl
    rw [hproc, uartHandler_pos c hc s, hmod]
    have ih' := ih { s with
        totalBytesReceived := s.totalBytesReceived + c,
        ledLevel := if (s.totalBytesReceived + c) % 2 = 1
          then GPIO_Value_Type.Low else GPIO_Value_Type.High }
      (fun x hx => hpos x (by simp [hx]))
      (by simp; omega)
    simp only at ih'
    rcases ih' with ⟨h1, h2, h3, h4⟩
    refine ⟨?_, ?_, ?_, ?_⟩
    · rw [h1]; simp [hsum]; omega
    · rw [h2]
    · rw [h3]
    · rw [h4]
      by_cases hcs : cs = []
      · subst hcs; simp
      · simp [hcs, hsum, Nat.add_assoc]

/-- C3: after any nonempty sequence of successful receive invocations
with positive byte counts (and no size_t wraparound), ReceiveCounter
equals its starting value plus the sum of the bytes read, the LED is
driven Low (active) when the cumulative counter is odd and High
(inactive) when even, and terminationRequired and the button state are
untouched. Prefix instantiations give the property after each
invocation. -/
theorem receiveCounter_sum_parity (s : AppState) (counts : List Nat)
    (hpos : ∀ c ∈ counts, 0 < c)
    (hbound : s.totalBytesReceived + counts.sum < sizeTMod)
    (hne : counts ≠ []) :
    (processReceives s counts).totalBytesReceived = s.totalBytesReceived + counts.sum ∧
    (processReceives s counts).ledLevel =
      (if (s.totalBytesReceived + counts.sum) % 2 = 1 then GPIO_Value_Type.Low
       else GPIO_Value_Type.High) ∧
    (processReceives s counts).terminationRequired = s.terminationRequired ∧
    (processReceives s counts).buttonState = s.buttonState := by
  obtain ⟨h1, h2, h3, h4⟩ := processReceives_spec counts s hpos hbound
  exact ⟨h1, by rw [h4, if_neg hne], h2, h3⟩

/-- Witness for C3's theorem: receives of 5 then 3 bytes give counter 8
and an inactive LED; 5 then 4 give counter 9 and an active LED. -/
theorem receiveCounter_sum_parity_witness :
    (processReceives initialAppState [5, 3]).totalBytesReceived = 8 ∧
    (processReceives initialAppState [5, 3]).ledLevel = GPIO_Value_Type.High ∧
    (processReceives initialAppState [5, 4]).totalBytesReceived = 9 ∧
    (processReceives initialAppState [5, 4]).ledLevel = GPIO_Value_Type.Low := by
  have h1 := receiveCounter_sum_parity initialAppState [5, 3]
    (by decide) (by decide) (by decide)
  have h2 := receiveCounter_sum_parity initialAppState [5, 4]
    (by decide) (by decide) (by decide)
  refine ⟨by rw [h1.1]; decide, by rw [h1.2.1]; decide,
          by rw [h2.1]; decide, by rw [h2.2.1]; decide⟩

/-- C4: each receive invocation issues exactly one read bounded by 256
bytes: against a stream of buffered data it consumes min 256 (length of
the stream) bytes and leaves the rest; a zero-byte read changes nothing;
a negative read result only sets terminationRequired. -/
theorem uartHandler_single_bounded_read (bytesRead setValueResult : Int)
    (stream : List Nat) (s : AppState) (hneg : bytesRead < 0) :
    receiveBufferSize = 256 ∧
    UartEventHandler 0 setValueResult s = s ∧
    UartEventHandler bytesRead setValueResult s = { s with terminationRequired := true } ∧
    (UartEventHandlerStream stream setValueResult s).1
      = UartEventHandler (Int.ofNat (min receiveBufferSize stream.length)) setValueResult s ∧
    (UartEventHandlerStream stream setValueResult s).2
      = stream.drop (min receiveBufferSize stream.length) ∧
    stream.length - (UartEventHandlerStream stream setValueResult s).2.length
      ≤ receiveBufferSize := by
  refine ⟨rfl, ?_, ?_, rfl, rfl, ?_⟩
  · simp [UartEventHandler]
  · simp [UartEventHandler, hneg]
  · simp only [UartEventHandlerStream, List.length_drop]
    omega

/-- Witness for C4's theorem: a failing read from the initial state. -/
theorem uartHandler_single_bounded_read_witness :
    UartEventHandler (-1) 0 initialAppState
      = { initialAppState with terminationRequired := true } :=
  (uartHandler_single_bounded_read (-1) 0 [] initialAppState (by decide)).2.2.1

/-- C5: shutdown first forces the LED to its inactive level (ignoring
the result of that GPIO_SetValue, which is never escalated), then closes
the peripherals in exactly the reverse of the acquisition order recorded
by initialization: LED, poll timer, button, UART, epoll. -/
theorem shutdown_reverse_order (r : Int) :
    (ClosePeripheralsAndHandlers (InitPeripheralsAndHandlers none).fds r).head?
      = some ShutdownAction.setLedInactive ∧
    closedPeripherals (ClosePeripheralsAndHandlers (InitPeripheralsAndHandlers none).fds r)
      = acquisitionOrder.reverse ∧
    (InitPeripheralsAndHandlers none).actions.filterMap initActionPeripheral
      = acquisitionOrder ∧
    ClosePeripheralsAndHandlers (InitPeripheralsAndHandlers none).fds r
      = ClosePeripheralsAndHandlers (InitPeripheralsAndHandlers none).fds 0 := by
  have h0 : ClosePeripheralsAndHandlers (InitPeripheralsAndHandlers none).fds r
      = ClosePeripheralsAndHandlers (InitPeripheralsAndHandlers none).fds 0 := rfl
  refine ⟨rfl, ?_, by decide, h0⟩
  rw [h0]
  decide

lemma mainLoop_true (ds : List (Int × Bool)) : mainLoop true ds = (0, true) := by
  cases ds <;> simp [mainLoop]

lemma mainModel_trace (failAt : Option InitStep) (ds : List (Int × Bool)) :
    (mainModel failAt ds).shutdownTrace
      = ClosePeripheralsAndHandlers (InitPeripheralsAndHandlers failAt).fds 0 := rfl

lemma mainModel_fail (step : InitStep) (ds : List (Int × Bool)) :
    (mainModel (some step) ds).terminationRequired = true ∧
    (mainModel (some step) ds).loopIterations = 0 := by
  have h : (InitPeripheralsAndHandlers (some step)).ret = -1 := by cases step <;> rfl
  simp [mainModel, h, mainLoop_true]

/-- C6: when any initialization step fails, terminationRequired is set,
the dispatch loop runs zero iterations, and every descriptor acquired
before the failure (non-negative fd) is closed by the shutdown trace —
nothing is leaked. -/
theorem initFailure_no_leak (step : InitStep) (dispatches : List (Int × Bool)) (p : Peripheral)
    (hopen : 0 ≤ ((InitPeripheralsAndHandlers (some step)).fds).fdOf p) :
    (mainModel (some step) dispatches).terminationRequired = true ∧
    (mainModel (some step) dispatches).loopIterations = 0 ∧
    ShutdownAction.closeFd p ∈ (mainModel (some step) dispatches).shutdownTrace := by
  obtain ⟨ht, hi⟩ := mainModel_fail step dispatches
  refine ⟨ht, hi, ?_⟩
  rw [mainModel_trace]
  revert hopen
  cases step <;> cases p <;> decide

/-- Witness for C6's theorem: failure at the LED (digital output) step
leaves the UART open, and the shutdown trace closes it. -/
theorem initFailure_no_leak_witness :
    (mainModel (some InitStep.led) []).terminationRequired = true ∧
    (mainModel (some InitStep.led) []).loopIterations = 0 ∧
    ShutdownAction.closeFd Peripheral.uart
      ∈ (mainModel (some InitStep.led) []).shutdownTrace :=
  initFailure_no_leak InitStep.led [] Peripheral.uart (by decide)

/-- C7: initialization succeeds performing exactly the recorded steps:
the UART is opened at 9600 baud with no flow control, the button poll
timer period is 1 millisecond (0 s + 1000000 ns), and the LED output is
opened with its initial level inactive (High). -/
theorem init_configuration :
    (InitPeripheralsAndHandlers none).ret = 0 ∧
    (InitPeripheralsAndHandlers none).actions =
      [InitAction.createEpollFd,
       InitAction.openUart { baudRate := 9600, flowControl := UART_FlowControl.None },
       InitAction.registerUartEventHandler,
       InitAction.openButtonAsInput,
       InitAction.createButtonPollTimer { tv_sec := 0, tv_nsec := nanosecondsPerMillisecond },
       InitAction.openLedAsOutput ledInactiveLevel] ∧
    uartConfigUsed.baudRate = 9600 ∧
    uartConfigUsed.flowControl = UART_FlowControl.None ∧
    buttonPressCheckPeriod.tv_sec * 1000000000 + buttonPressCheckPeriod.tv_nsec
      = nanosecondsPerMillisecond ∧
    ledInactiveLevel = GPIO_Value_Type.High := by decide

/-- C8: on a failing read the receive handler's only state change is
setting terminationRequired: counter, LED level and button state are
exactly as before. -/
theorem uartHandler_error_frame (bytesRead setValueResult : Int) (s : AppState)
    (hneg : bytesRead < 0) :
    (UartEventHandler bytesRead setValueResult s).totalBytesReceived
      = s.totalBytesReceived ∧
    (UartEventHandler bytesRead setValueResult s).ledLevel = s.ledLevel ∧
    (UartEventHandler bytesRead setValueResult s).buttonState = s.buttonState ∧
    (UartEventHandler bytesRead setValueResult s).terminationRequired = true := by
  simp [UartEventHandler, hneg]

/-- Witness for C8's theorem: a read returning -2 from the initial state. -/
theorem uartHandler_error_frame_witness :
    (UartEventHandler (-2) 0 initialAppState).totalBytesReceived
      = initialAppState.totalBytesReceived ∧
    (UartEventHandler (-2) 0 initialAppState).ledLevel = initialAppState.ledLevel ∧
    (UartEventHandler (-2) 0 initialAppState).buttonState = initialAppState.buttonState ∧
    (UartEventHandler (-2) 0 initialAppState).terminationRequired = true :=
  uartHandler_error_frame (-2) 0 initialAppState (by decide)

lemma sendLoop_complete_of_pos (writes : List Int) : ∀ (total sent iters : Nat),
    total - sent ≤ writes.length → (∀ w ∈ writes, 0 < w) →
    ∃ n i, sendLoop total sent iters writes = SendOutcome.complete n i ∧
      total ≤ n ∧ i ≤ iters + (total - sent) := by
  induction writes with
  | nil =>
    intro total sent iters hlen hpos
    have h : ¬ sent < total := by simp at hlen; omega
    exact ⟨sent, iters, sendLoop_done total sent iters [] h, by omega, by omega⟩
  | cons w ws ih =>
    intro total sent iters hlen hpos
    by_cases h : sent < total
    · have hw0 : 0 < w := hpos w (by simp)
      have hw : ¬ w < 0 := by omega
      have hw1 : 1 ≤ w.toNat := by omega
      rw [sendLoop_cons_nonneg total sent iters w ws h hw]
      obtain ⟨n, i, heq, hn, hi⟩ := ih total (sent + w.toNat) (iters + 1)
        (by simp at hlen; omega) (fun x hx => hpos x (by simp [hx]))
      exact ⟨n, i, heq, hn, by omega⟩
    · exact ⟨sent, iters, sendLoop_done total sent iters (w :: ws) h, by omega, by omega⟩

/-- C9: when every write call returns a strictly positive byte count,
the send loop terminates for every finite message: given at least
msg.length write results it completes, the total written reaches the
message length, and at most msg.length iterations were needed (each
iteration strictly increases the running total). -/
theorem sendUart_terminates_on_positive_writes (msg : String) (writes : List Int)
    (hlen : msg.length ≤ writes.length) (hpos : ∀ w ∈ writes, 0 < w) :
    ∃ sent iterations,
      SendUartMessage msg writes = SendOutcome.complete sent iterations ∧
      msg.length ≤ sent ∧ iterations ≤ msg.length := by
  obtain ⟨n, i, heq, hn, hi⟩ := sendLoop_complete_of_pos writes msg.length 0 0
    (by omega) hpos
  exact ⟨n, i, heq, hn, by omega⟩

/-- Witness for C9's theorem: the fixed message against 33 one-byte
writes. -/
theorem sendUart_terminates_on_positive_writes_witness :
    ∃ sent iterations,
      SendUartMessage messageToSend (List.replicate 33 1)
        = SendOutcome.complete sent iterations ∧
      messageToSend.length ≤ sent ∧ iterations ≤ messageToSend.length :=
  sendUart_terminates_on_positive_writes messageToSend (List.replicate 33 1)
    (by decide) (by decide)

/-- C10: when a press edge triggers a send that fails fatally, the
recorded button state is still updated to Low (so an immediately
following poll that samples Low triggers no second send), and beyond
terminationRequired nothing else changes: counter and LED level are
untouched. -/
theorem pressEdge_fatal_updates_state (s : AppState) (writes writes2 : List Int)
    (hb : s.buttonState = GPIO_Value_Type.High)
    (hf : (SendUartMessage messageToSend writes).isFatal = true) :
    (ButtonPollTimerEventHandler 0 0 GPIO_Value_Type.Low writes s).1.buttonState
      = GPIO_Value_Type.Low ∧
    (ButtonPollTimerEventHandler 0 0 GPIO_Value_Type.Low writes s).1.terminationRequired
      = true ∧
    (ButtonPollTimerEventHandler 0 0 GPIO_Value_Type.Low writes s).1.totalBytesReceived
      = s.totalBytesReceived ∧
    (ButtonPollTimerEventHandler 0 0 GPIO_Value_Type.Low writes s).1.ledLevel
      = s.ledLevel ∧
    (ButtonPollTimerEventHandler 0 0 GPIO_Value_Type.Low writes2
        (ButtonPollTimerEventHandler 0 0 GPIO_Value_Type.Low writes s).1).2 = none := by
  simp [ButtonPollTimerEventHandler, hb, hf]

/-- Witness for C10's theorem: a press edge whose first write fails. -/
theorem pressEdge_fatal_updates_state_witness :
    (ButtonPollTimerEventHandler 0 0 GPIO_Value_Type.Low [-1] initialAppState).1.buttonState
      = GPIO_Value_Type.Low ∧
    (ButtonPollTimerEventHandler 0 0 GPIO_Value_Type.Low [-1] initialAppState).1.terminationRequired
      = true ∧
    (ButtonPollTimerEventHandler 0 0 GPIO_Value_Type.Low [-1] initialAppState).1.totalBytesReceived
      = initialAppState.totalBytesReceived ∧
    (ButtonPollTimerEventHandler 0 0 GPIO_Value_Type.Low [-1] initialAppState).1.ledLevel
      = initialAppState.ledLevel ∧
    (ButtonPollTimerEventHandler 0 0 GPIO_Value_Type.Low []
        (ButtonPollTimerEventHandler 0 0 GPIO_Value_Type.Low [-1] initialAppState).1).2
      = none :=
  pressEdge_fatal_updates_state initialAppState [-1] [] rfl (by decide)
